import Mathlib

/-!
# Verification of the insider-threat detection core (Team_71)

Shallow embedding of the deterministic logic of the Team_71 insider-threat
detection system:

* `backend/ml_anomaly_detector.py` — per-user behavioral baselines, the
  off-hours / temporal-anomaly features, and the baseline update performed by
  `detect_anomaly`;
* `backend/main.py` — the ITS baseline floor inside `calculate_its_score`,
  the risk-band / auto-escalation rules, and the `/api/activities/ingest`
  handler with its fingerprint suppression state machine;
* `agent/realtime_monitor.py` — the offline queue logic of
  `_send_activities_batch`.

Python floats are modelled as `ℚ`; hours and counters as `ℕ`; `datetime`
values as `ℚ` (days since an arbitrary epoch) or `ℕ` (hour of day) as fits.
Python dicts (which preserve insertion order) are modelled as
insertion-ordered association lists.  Calls into trained scikit-learn /
XGBoost models are opaque: their numeric results enter the embedding as
explicit parameters.
-/

/-! ## Dictionary helpers (Python `dict` as insertion-ordered assoc list) -/

/-- `d.get(k, dflt)` on an insertion-ordered dict. -/
def dictGetD (l : List (ℕ × ℕ)) (k : ℕ) (d : ℕ) : ℕ :=
  (List.lookup k l).getD d

/-- `max(d.values())`, with `0` for the empty dict (Python would raise there;
every use below is guarded by a non-emptiness test, as in the source). -/
def dictMaxValue (l : List (ℕ × ℕ)) : ℕ :=
  l.foldr (fun p m => max p.2 m) 0

/-- `d[k] = d.get(k, 0) + 1` on an insertion-ordered dict: an existing key is
updated in place, a new key is appended at the end (Python dicts preserve
insertion order). -/
def dictBump {α : Type} [DecidableEq α] : List (α × ℕ) → α → List (α × ℕ)
  | [], k => [(k, 1)]
  | (k', v) :: rest, k =>
      if k' = k then (k', v + 1) :: rest else (k', v) :: dictBump rest k

/-- Python list slice `l[-n:]` (note `l[-0:]` is the whole list). -/
def pySliceLast {α : Type} (l : List α) (n : ℕ) : List α :=
  if n = 0 then l else l.drop (l.length - n)

/-! ## ML anomaly detector (`backend/ml_anomaly_detector.py`) -/

/-- Per-user behavioral baseline, as created by `_update_user_baseline`
(`ml_anomaly_detector.py` lines 261-270).  All five fields are created
together, so the Python `baseline.get(field, default)` reads always find the
key. -/
structure Baseline where
  typical_hours : List ℕ
  hour_frequency : List (ℕ × ℕ)
  avg_activity_rate : List (String × ℚ)
  activity_distribution : List (String × ℕ)
  typical_sequences : List (List String)
deriving DecidableEq

/-- The freshly created baseline dict (`_update_user_baseline`, lines 263-270). -/
def emptyBaseline : Baseline :=
  { typical_hours := []
    hour_frequency := []
    avg_activity_rate := []
    activity_distribution := []
    typical_sequences := [] }

/-- `self.user_baselines`: the per-user baseline map owned by the detector. -/
abbrev DetectorState := String → Option Baseline

/-- `MLAnomalyDetector._calculate_off_hours_score` (lines 157-189).
Working hours `[7,19)` score `0`; otherwise `0.8` without a baseline; with a
baseline, the deviation `1 - freq/max_freq` when the hour is not typical
(`0.8` when the frequency dict is empty), and `0.3` when it is typical. -/
def calculate_off_hours_score (st : DetectorState) (user_id : String)
    (current_hour : ℕ) : ℚ :=
  let is_off_hours := current_hour < 7 ∨ 19 ≤ current_hour
  if ¬ is_off_hours then 0
  else
    match st user_id with
    | none => 8/10
    | some baseline =>
      if current_hour ∉ baseline.typical_hours then
        if baseline.hour_frequency ≠ [] then
          let max_freq := dictMaxValue baseline.hour_frequency
          let current_freq := dictGetD baseline.hour_frequency current_hour 0
          let deviation : ℚ :=
            if 0 < max_freq then 1 - (current_freq : ℚ) / (max_freq : ℚ) else 1
          min deviation 1
        else 8/10
      else 3/10

/-- `MLAnomalyDetector._calculate_temporal_anomaly` (lines 238-259), applied
to the `activity_type` fields of the recent-activity context. -/
def calculate_temporal_anomaly (st : DetectorState) (user_id : String)
    (recent_types : List String) : ℚ :=
  match st user_id with
  | none => 0
  | some baseline =>
    let activity_sequence := pySliceLast recent_types 10
    if baseline.typical_sequences ≠ [] then
      let sequence_match := baseline.typical_sequences.any
        (fun seq => pySliceLast activity_sequence seq.length == seq)
      if ¬ sequence_match then 3/5 else 0
    else 0

/-- The `typical_hours` recomputation in `_update_user_baseline` (lines
285-288): top 12 hours by count, Python's stable descending sort. -/
def topHours (l : List (ℕ × ℕ)) : List ℕ :=
  ((l.mergeSort (fun a b => b.2 ≤ a.2)).take 12).map Prod.fst

/-- `MLAnomalyDetector._update_user_baseline` (lines 261-288).  The histogram
bucket incremented is `datetime.now().hour` — the server's wall-clock hour at
processing time — passed here explicitly as `server_hour`. -/
def update_user_baseline (st : DetectorState) (user_id : String)
    (activity_type : String) (server_hour : ℕ) : DetectorState :=
  let baseline := (st user_id).getD emptyBaseline
  let hour_frequency := dictBump baseline.hour_frequency server_hour
  let activity_distribution := dictBump baseline.activity_distribution activity_type
  let typical_hours :=
    if 100 < hour_frequency.length then topHours hour_frequency
    else baseline.typical_hours
  fun u =>
    if u = user_id then
      some { typical_hours := typical_hours
             hour_frequency := hour_frequency
             avg_activity_rate := baseline.avg_activity_rate
             activity_distribution := activity_distribution
             typical_sequences := baseline.typical_sequences }
    else st u

/-- The `off_hours_score` feature (feature 9) exactly as it is produced inside
`detect_anomaly` (lines 290-303): the baseline is updated first — at the
server's wall-clock hour — and only then is the feature extracted at the
activity's own hour. -/
def detect_off_hours_feature (st : DetectorState) (user_id : String)
    (activity_type : String) (activity_hour server_hour : ℕ) : ℚ :=
  let st' := update_user_baseline st user_id activity_type server_hour
  calculate_off_hours_score st' user_id activity_hour

/-- Detector states reachable from a freshly constructed `MLAnomalyDetector`
(`user_baselines = {}`) by any sequence of `_update_user_baseline` calls —
the only operation of the detector that writes `user_baselines`. -/
inductive DetectorReachable : DetectorState → Prop
  | init : DetectorReachable (fun _ => none)
  | step (st : DetectorState) (user_id activity_type : String) (server_hour : ℕ) :
      DetectorReachable st →
      DetectorReachable (update_user_baseline st user_id activity_type server_hour)

lemma update_user_baseline_apply_self (st : DetectorState) (uid at' : String)
    (sh : ℕ) :
    update_user_baseline st uid at' sh uid =
      some { typical_hours :=
               if 100 < (dictBump ((st uid).getD emptyBaseline).hour_frequency sh).length
               then topHours (dictBump ((st uid).getD emptyBaseline).hour_frequency sh)
               else ((st uid).getD emptyBaseline).typical_hours
             hour_frequency := dictBump ((st uid).getD emptyBaseline).hour_frequency sh
             avg_activity_rate := ((st uid).getD emptyBaseline).avg_activity_rate
             activity_distribution :=
               dictBump ((st uid).getD emptyBaseline).activity_distribution at'
             typical_sequences := ((st uid).getD emptyBaseline).typical_sequences } := by
  simp [update_user_baseline]

lemma update_user_baseline_apply_ne (st : DetectorState) (uid at' : String)
    (sh : ℕ) (u : String) (hu : u ≠ uid) :
    update_user_baseline st uid at' sh u = st u := by
  simp [update_user_baseline, hu]

lemma reachable_typical_sequences_nil {st : DetectorState}
    (h : DetectorReachable st) :
    ∀ u b, st u = some b → b.typical_sequences = [] := by
  induction h with
  | init =>
    intro u b hb
    simp at hb
  | step st uid at' sh _ ih =>
    intro u b hb
    by_cases hu : u = uid
    · subst hu
      rw [update_user_baseline_apply_self] at hb
      injection hb with hb
      rw [← hb]
      cases hst : st u with
      | none => simp [hst, emptyBaseline]
      | some b0 => simp [hst, ih u b0 hst]
    · rw [update_user_baseline_apply_ne st uid at' sh u hu] at hb
      exact ih u b hb

/-- C9: the detector's `temporal_anomaly_score` (feature 13) is `0` for every
input: `typical_sequences` is initialized empty and no detector operation ever
adds to it, so the `0.6` branch of `_calculate_temporal_anomaly` is
unreachable. -/
theorem temporal_anomaly_always_zero (st : DetectorState)
    (h : DetectorReachable st) (user_id : String) (recent_types : List String) :
    calculate_temporal_anomaly st user_id recent_types = 0 := by
  unfold calculate_temporal_anomaly
  cases hst : st user_id with
  | none => rfl
  | some b =>
    have hb : b.typical_sequences = [] :=
      reachable_typical_sequences_nil h user_id b hst
    simp [hb]

theorem temporal_anomaly_always_zero_witness :
    calculate_temporal_anomaly (fun _ => none) "U050"
      ["logon", "file_access", "email"] = 0 :=
  temporal_anomaly_always_zero (fun _ => none) DetectorReachable.init "U050"
    ["logon", "file_access", "email"]

/-- C10: the detector is not a function of its declared inputs.  Two calls on
the identical first-ever activity (user `U050`, type `logon`, activity hour
23) made at server wall-clock hours 10 and 23 increment different histogram
buckets, and the resulting `off_hours_score` feature differs (`1` vs `0`). -/
theorem detector_depends_on_server_hour :
    (10 : ℕ) ≠ 23 ∧
    (update_user_baseline (fun _ => none) "U050" "logon" 10 "U050").map
      (fun b => dictGetD b.hour_frequency 10 0) = some 1 ∧
    (update_user_baseline (fun _ => none) "U050" "logon" 23 "U050").map
      (fun b => dictGetD b.hour_frequency 10 0) = some 0 ∧
    detect_off_hours_feature (fun _ => none) "U050" "logon" 23 10 = 1 ∧
    detect_off_hours_feature (fun _ => none) "U050" "logon" 23 23 = 0 := by
  refine ⟨by decide, ?_, ?_, ?_, ?_⟩ <;>
    simp [update_user_baseline, detect_off_hours_feature,
      calculate_off_hours_score, dictBump, dictGetD, dictMaxValue,
      emptyBaseline, List.lookup]

/-! ## C4: the off-hours score -/

/-- The off-hours score exactly as claim C4 words it: `0` in working hours
`[7,19)`; `0.8` when no baseline exists; otherwise `1 - freq/peak`, with a
floor of `0.3` when the hour is among the user's typical hours. -/
def off_hours_score_claimed (st : DetectorState) (user_id : String)
    (current_hour : ℕ) : ℚ :=
  if 7 ≤ current_hour ∧ current_hour < 19 then 0
  else
    match st user_id with
    | none => 8/10
    | some baseline =>
      let deviation : ℚ :=
        1 - (dictGetD baseline.hour_frequency current_hour 0 : ℚ) /
          (dictMaxValue baseline.hour_frequency : ℚ)
      if current_hour ∈ baseline.typical_hours then max deviation (3/10)
      else deviation

/-- A baseline whose typical hours include 23 although hour 23 is rare
relative to the peak hour 10. -/
def c4Baseline : Baseline :=
  { typical_hours := [23]
    hour_frequency := [(23, 1), (10, 100)]
    avg_activity_rate := []
    activity_distribution := []
    typical_sequences := [] }

def c4State : DetectorState := fun u => if u = "U050" then some c4Baseline else none

/-- C4 counterexample: for a baseline where hour 23 is typical but has
frequency 1 against a peak of 100, the code returns the flat `0.3` while the
claim's "`1 - freq/peak` with a floor of `0.3`" would give `0.99`. -/
theorem off_hours_score_floor_counterexample :
    calculate_off_hours_score c4State "U050" 23 = 3/10 ∧
    off_hours_score_claimed c4State "U050" 23 = 99/100 ∧
    (3/10 : ℚ) ≠ 99/100 := by
  refine ⟨?_, ?_, by norm_num⟩
  · simp [calculate_off_hours_score, c4State, c4Baseline]
  · simp only [off_hours_score_claimed, c4State, c4Baseline, dictGetD,
      dictMaxValue, List.lookup]
    norm_num

/-- The off-hours score as amended: when the hour is among the user's typical
hours the score is exactly `0.3` (the deviation formula is not evaluated);
when it is not, the score is the deviation `1 - freq/peak` (`0.8` when the
frequency table is empty, `1` when the peak is zero). -/
def off_hours_score_amended (st : DetectorState) (user_id : String)
    (current_hour : ℕ) : ℚ :=
  if 7 ≤ current_hour ∧ current_hour < 19 then 0
  else
    match st user_id with
    | none => 8/10
    | some baseline =>
      if current_hour ∈ baseline.typical_hours then 3/10
      else if baseline.hour_frequency = [] then 8/10
      else if dictMaxValue baseline.hour_frequency = 0 then 1
      else
        1 - (dictGetD baseline.hour_frequency current_hour 0 : ℚ) /
          (dictMaxValue baseline.hour_frequency : ℚ)

/-- C4 amended: `_calculate_off_hours_score` returns `0` during working hours
`[7,19)`, `0.8` off-hours without a baseline, the deviation `1 - freq/peak`
off-hours for a non-typical hour (`0.8` on an empty frequency table), and
exactly `0.3` for a typical hour. -/
theorem off_hours_score_amended_correct (st : DetectorState) (user_id : String)
    (current_hour : ℕ) :
    calculate_off_hours_score st user_id current_hour =
      off_hours_score_amended st user_id current_hour := by
  simp only [calculate_off_hours_score, off_hours_score_amended]
  by_cases hoff : current_hour < 7 ∨ 19 ≤ current_hour
  · rw [if_neg (not_not_intro hoff), if_neg (by omega)]
    cases hst : st user_id with
    | none => rfl
    | some baseline =>
      dsimp only
      by_cases htyp : current_hour ∈ baseline.typical_hours
      · rw [if_neg (not_not_intro htyp), if_pos htyp]
      · rw [if_pos htyp, if_neg htyp]
        by_cases hemp : baseline.hour_frequency = []
        · rw [if_neg (not_not_intro hemp), if_pos hemp]
        · rw [if_pos hemp, if_neg hemp]
          by_cases hmax : dictMaxValue baseline.hour_frequency = 0
          · rw [if_pos hmax, if_neg (by omega)]
            exact min_self 1
          · have hpos : 0 < dictMaxValue baseline.hour_frequency :=
              Nat.pos_of_ne_zero hmax
            have hnn : (0 : ℚ) ≤
                (dictGetD baseline.hour_frequency current_hour 0 : ℚ) /
                  (dictMaxValue baseline.hour_frequency : ℚ) := by positivity
            rw [if_neg hmax, if_pos hpos, min_eq_left (by linarith)]
  · rw [if_pos hoff, if_pos (by omega)]

/-! ## C6: the ITS baseline floor (`backend/main.py`, lines 410-423) -/

/-- The baseline-floor stage of `ThreatDetectionEngine.calculate_its_score`
(main.py lines 410-421).  `timestamps_desc` holds the timestamps (in days) of
the user's activities in the 7-day window, ordered by DESCENDING timestamp as
the query returns them; `now` is `datetime.now()` in the same unit.
`days_old` is `(datetime.now() - recent_activities_db[-1].timestamp).days` —
the whole-day age of the LAST element of the descending list. -/
def its_baseline_floor (its_score : ℚ) (timestamps_desc : List ℚ)
    (now : ℚ) : ℚ :=
  let activity_count := timestamps_desc.length
  if its_score < 8 ∧ 0 < activity_count then
    let days_old : ℤ :=
      match timestamps_desc.getLast? with
      | some ts => ⌊now - ts⌋
      | none => 7
    let recency_factor : ℚ := max (1/2) (1 - (days_old : ℚ) / 7)
    let baseline := min (8 + (activity_count : ℚ) * (1/5) * recency_factor) 20
    max its_score baseline
  else its_score

/-- The baseline floor as claim C6 words it: the recency factor is computed
from `days_since_most_recent`, the age of the user's MOST RECENT in-window
activity — the first element of the descending list. -/
def its_baseline_floor_claimed (its_score : ℚ) (timestamps_desc : List ℚ)
    (now : ℚ) : ℚ :=
  let activity_count := timestamps_desc.length
  if its_score < 8 ∧ 0 < activity_count then
    let days_since_most_recent : ℤ :=
      match timestamps_desc.head? with
      | some ts => ⌊now - ts⌋
      | none => 7
    let recency_factor : ℚ := max (1/2) (1 - (days_since_most_recent : ℚ) / 7)
    min (8 + (activity_count : ℚ) * (1/5) * recency_factor) 20
  else its_score

/-- C6 counterexample: raw score 5 with two in-window activities, one now and
one six days old.  The code measures recency from the OLDEST in-window
activity (`recent_activities_db[-1]` of a descending list), giving 8.2, while
the claim's `days_since_most_recent` would give 8.4. -/
theorem its_baseline_floor_counterexample :
    its_baseline_floor 5 [100, 94] 100 = 41/5 ∧
    its_baseline_floor_claimed 5 [100, 94] 100 = 42/5 ∧
    (41/5 : ℚ) ≠ 42/5 := by
  refine ⟨?_, ?_, by norm_num⟩
  · simp only [its_baseline_floor, List.getLast?, List.length_cons,
      List.length_nil]
    norm_num
  · simp only [its_baseline_floor_claimed, List.head?, List.length_cons,
      List.length_nil]
    norm_num

lemma sorted_ge_getLast_le {l : List ℚ} (hs : List.Sorted (· ≥ ·) l)
    (hne : l ≠ []) : ∀ x ∈ l, l.getLast hne ≤ x := by
  induction l with
  | nil => cases hne rfl
  | cons a t ih =>
    intro x hx
    cases t with
    | nil =>
      simp only [List.mem_singleton] at hx
      simp [hx, List.getLast]
    | cons b t' =>
      rw [List.getLast_cons (by simp)]
      rcases List.mem_cons.mp hx with rfl | hx'
      · exact (List.sorted_cons.mp hs).1 _ (List.getLast_mem (by simp))
      · exact ih (List.sorted_cons.mp hs).2 (by simp) x hx'

/-- C6 amended: if the raw ensemble score is below 8 and the 7-day window is
non-empty, the returned score is `min(20, 8 + 0.2·count·recency_factor)` with
`recency_factor = max(0.5, 1 − days/7)` where `days` is measured from the
OLDEST in-window activity (the last element of the descending window, which
is ≤ every in-window timestamp). -/
theorem its_baseline_floor_amended (raw now m : ℚ) (l : List ℚ)
    (h8 : raw < 8) (hne : l ≠ []) (hs : List.Sorted (· ≥ ·) l)
    (hm : l.getLast hne = m) :
    its_baseline_floor raw l now =
      min (8 + (l.length : ℚ) * (1/5) *
        max (1/2) (1 - ((⌊now - m⌋ : ℤ) : ℚ)/7)) 20 ∧
    ∀ x ∈ l, m ≤ x := by
  constructor
  · unfold its_baseline_floor
    rw [if_pos ⟨h8, List.length_pos.mpr hne⟩,
      List.getLast?_eq_getLast l hne, hm]
    dsimp only
    apply max_eq_right
    have hr : (1/2 : ℚ) ≤ max (1/2) (1 - ((⌊now - m⌋ : ℤ) : ℚ)/7) :=
      le_max_left _ _
    have hlen : (0 : ℚ) ≤ (l.length : ℚ) := by positivity
    have h1 : (8 : ℚ) ≤ 8 + (l.length : ℚ) * (1/5) *
        max (1/2) (1 - ((⌊now - m⌋ : ℤ) : ℚ)/7) := by nlinarith
    have h2 : (8 : ℚ) ≤ min (8 + (l.length : ℚ) * (1/5) *
        max (1/2) (1 - ((⌊now - m⌋ : ℤ) : ℚ)/7)) 20 :=
      le_min h1 (by norm_num)
    linarith
  · intro x hx
    exact hm ▸ sorted_ge_getLast_le hs hne x hx

theorem its_baseline_floor_amended_witness :
    its_baseline_floor 5 [100, 94] 100 =
      min (8 + ((([100, 94] : List ℚ).length : ℕ) : ℚ) * (1/5) *
        max (1/2) (1 - ((⌊(100 : ℚ) - 94⌋ : ℤ) : ℚ)/7)) 20 ∧
    ∀ x ∈ ([100, 94] : List ℚ), (94 : ℚ) ≤ x :=
  its_baseline_floor_amended 5 100 94 [100, 94] (by norm_num) (by simp)
    (by simp [List.sorted_cons]; norm_num) (by simp [List.getLast])

/-! ## Ingest service (`backend/main.py`, `ingest_activity`, lines 927-1226)

The handler's calls into trained models are opaque and enter as parameters:
`det` stands for the triple returned by `ml_detector.detect_anomaly`, `fp`
for `ml_detector.generate_fingerprint`, and `score` for
`ThreatDetectionEngine.calculate_its_score` (whose value is unchanged within
one request: the activity window it reads is not modified between the
handler's calls to it).  Time is in days; `ALERT_SUPPRESSION_HOURS = 24` is
one day and the incident-dedup window of 2 hours is `1/12`. -/

/-- Lowercasing as Python `str.lower()` restricted to ASCII payloads. -/
def pyLower (s : String) : String := String.mk (s.toList.map Char.toLower)

/-- Python `sub in s` substring containment. -/
def strContains (s sub : String) : Bool :=
  s.toList.tails.any (fun t => sub.toList.isPrefixOf t)

/-- `map`-update of every element satisfying `p` — the effect of mutating the
matching ORM rows and committing. -/
def updateWhere {α : Type} (l : List α) (p : α → Bool) (f : α → α) : List α :=
  l.map (fun x => if p x then f x else x)

/-- The POST body (`UserActivity`), with the two `details` keys the modelled
logic consumes lifted out; everything else in the free-form `details` bag is
opaque to the handler and kept as a blob. -/
structure ActivityInput where
  user_id : String
  timestamp : ℚ
  activity_type : String
  details_external : Bool
  details_sensitive : Bool
  details_blob : String
deriving DecidableEq

/-- One `activity_logs` row (the `ip_address`/`device_id`/`location` columns
are copies out of the opaque details bag and live in the blob). -/
structure ActivityRec where
  user_id : String
  timestamp : ℚ
  activity_type : String
  details_external : Bool
  details_sensitive : Bool
  details_blob : String
deriving DecidableEq

/-- One `AnomalyFingerprint` row. -/
structure FingerprintRec where
  user_id : String
  anomaly_type : String
  first_seen : ℚ
  last_seen : ℚ
  count : ℕ
  suppressed_until : Option ℚ
  escalated : Bool
deriving DecidableEq

/-- One `AnomalyAlert` row (Tier 1). -/
structure AnomalyAlertRec where
  alert_id : ℕ
  user_id : String
  timestamp : ℚ
  anomaly_type : String
  anomaly_fingerprint : String
  ml_anomaly_score : ℚ
  confidence : ℚ
  status : String
  suppressed_until : Option ℚ
  escalated_to_threat_id : Option ℕ
deriving DecidableEq

/-- One `ThreatAlertDB` row (the dashboard-visible mirror). -/
structure ThreatAlertRec where
  alert_id : ℕ
  user_id : String
  timestamp : ℚ
  its_score : ℚ
  risk_level : String
  anomalies : List String
  explanation : String
  status : String
  is_viewed : Bool
deriving DecidableEq

/-- One `Threat` row (Tier 2). -/
structure ThreatRec where
  threat_id : ℕ
  user_id : String
  timestamp : ℚ
  threat_type : String
  threat_fingerprint : String
  ml_threat_score : ℚ
  its_score : ℚ
  risk_level : String
  status : String
deriving DecidableEq

/-- One `Incident` row (Tier 3). -/
structure IncidentRec where
  incident_id : ℕ
  user_id : String
  timestamp : ℚ
  incident_type : String
  severity : String
  ml_incident_score : ℚ
  its_score : ℚ
  description : String
  status : String
  last_updated : Option ℚ
deriving DecidableEq

/-- One `User` row (the fields ingest touches). -/
structure UserRec where
  user_id : String
  its_score : ℚ
  risk_level : String
deriving DecidableEq

/-- The database state the ingest handler reads and writes.  Historical ITS
snapshots are omitted: the only call to `_save_daily_its_snapshot` inside
`ingest_activity` sits in the unreachable block after the function-level
`return` (lines 1201-1218). -/
structure IngestState where
  users : List UserRec
  activity_logs : List ActivityRec
  fingerprints : List (String × FingerprintRec)
  anomaly_alerts : List AnomalyAlertRec
  threat_alerts : List ThreatAlertRec
  threats : List ThreatRec
  incidents : List IncidentRec
deriving DecidableEq

/-- The `alert` object of an `alert_generated` response (line 1187-1197). -/
structure AlertPayload where
  ml_score : ℚ
  its_score : ℚ
  risk_level : String
  anomalies : List String
  explanation : String
  timestamp : ℚ
deriving DecidableEq

/-- What crosses the request boundary: a JSON response, or an
`HTTPException(status_code, detail)` (FastAPI turns the latter into an error
response with that code and detail). -/
inductive IngestResult where
  | response (status : String) (activity_logged : Bool) (its_score : Option ℚ)
      (alert : Option AlertPayload) (reason : Option String)
  | httpError (status_code : ℕ) (detail : String)
deriving DecidableEq

/-- The triple returned by `ml_detector.detect_anomaly`. -/
structure DetectorOutcome where
  is_anomaly : Bool
  ml_score : ℚ
  explanation : String
deriving DecidableEq

/-- The result of `ThreatDetectionEngine.calculate_its_score`. -/
structure ScoreData where
  its_score : ℚ
  risk_level : String
deriving DecidableEq

/-- `ALERT_SUPPRESSION_HOURS = 24` (main.py line 44), in days. -/
def alertSuppressionWindow : ℚ := 1

/-- `THREAT_ESCALATION_THRESHOLD = 0.75` (main.py line 45). -/
def THREAT_ESCALATION_THRESHOLD : ℚ := 3/4

/-- The 2-hour incident-dedup cutoff (main.py line 1289), in days. -/
def incidentDedupWindow : ℚ := 1/12

/-- Risk-band determination at alert creation (main.py lines 1048-1055). -/
def risk_level_of (ml_score its_score : ℚ) : String :=
  if 8/10 ≤ ml_score ∨ 70 ≤ its_score then "critical"
  else if 6/10 ≤ ml_score ∨ 50 ≤ its_score then "high"
  else if 4/10 ≤ ml_score ∨ 30 ≤ its_score then "medium"
  else "low"

/-- The auto-escalation predicate (main.py lines 1155-1160). -/
def should_escalate_to_incident (risk_level : String)
    (its_score ml_score : ℚ) : Bool :=
  risk_level == "critical" ||
  (risk_level == "high" && decide (50 ≤ its_score)) ||
  (risk_level == "high" && decide (7/10 ≤ ml_score)) ||
  decide (65 ≤ its_score)

/-- Anomaly-type extraction from the explanation (main.py lines 1058-1071). -/
def anomalies_list_of (explanation activity_type : String) : List String :=
  let el := pyLower explanation
  let anomalies :=
    (if strContains el "large file" || strContains activity_type "file"
     then ["Large file access"] else []) ++
    (if strContains el "sensitive" then ["Sensitive file access"] else []) ++
    (if strContains el "off-hours" || strContains el "off hours"
     then ["Off-hours activity"] else []) ++
    (if strContains el "external" then ["External communication"] else []) ++
    (if strContains el "suspicious" then ["Suspicious activity"] else [])
  if anomalies = [] then ["Anomaly detected: " ++ activity_type] else anomalies

/-- `_determine_threat_type` (main.py lines 1395-1409). -/
def determine_threat_type (explanation : String) : String :=
  let el := pyLower explanation
  if strContains el "data transfer" || strContains el "large"
  then "data_exfiltration"
  else if strContains el "sensitive" then "unauthorized_access"
  else if strContains el "sabotage" || strContains el "delete" then "sabotage"
  else if strContains el "off-hours" then "policy_violation"
  else "suspicious_activity"

/-- `_determine_incident_type` (main.py lines 1374-1392). -/
def determine_incident_type (a : ActivityInput) (explanation : String) : String :=
  let el := pyLower explanation
  if strContains el "data" && (strContains el "exfiltrat" || strContains el "transfer")
  then "data_breach"
  else if strContains el "sabotage" || strContains el "delete"
  then "insider_attack"
  else if strContains el "unauthorized" || strContains el "access"
  then "unauthorized_access"
  else if strContains el "policy" || strContains el "violation"
  then "policy_violation"
  else if a.activity_type == "email" && a.details_external then "data_breach"
  else if a.activity_type == "file_access" && a.details_sensitive
  then "unauthorized_access"
  else "suspicious_activity"

/-- `order_by(desc(timestamp)).first()` over an unordered row set. -/
def latestThreatAlert (l : List ThreatAlertRec) : Option ThreatAlertRec :=
  l.foldl (fun acc t =>
    match acc with
    | none => some t
    | some u => if u.timestamp < t.timestamp then some t else some u) none

/-- `order_by(desc(timestamp)).first()` over the incident row set. -/
def latestIncident (l : List IncidentRec) : Option IncidentRec :=
  l.foldl (fun acc i =>
    match acc with
    | none => some i
    | some j => if j.timestamp < i.timestamp then some i else some j) none

/-- `_escalate_to_threat` (main.py lines 1229-1281).  It recomputes the ITS;
within one request that call returns the same `score` (the activity window is
unchanged), so the oracle value is reused.  When a threat for this
fingerprint already exists it is returned unchanged. -/
def escalate_to_threat (st : IngestState) (alert_id : ℕ) (fp : String)
    (a : ActivityInput) (ml_score : ℚ) (explanation : String)
    (score : ScoreData) (now : ℚ) : IngestState :=
  if (st.threats.find? (fun t => t.threat_fingerprint == fp)).isSome then st
  else
    let threat : ThreatRec :=
      { threat_id := st.threats.length + 1
        user_id := a.user_id
        timestamp := now
        threat_type := determine_threat_type explanation
        threat_fingerprint := fp
        ml_threat_score := ml_score
        its_score := score.its_score
        risk_level := score.risk_level
        status := "open" }
    let st1 := { st with threats := st.threats ++ [threat] }
    let alerts2 := updateWhere st1.anomaly_alerts
      (fun al => al.alert_id == alert_id)
      (fun al => { al with escalated_to_threat_id := some threat.threat_id,
                           status := "escalated" })
    let st2 := { st1 with anomaly_alerts := alerts2 }
    let fps3 := updateWhere st2.fingerprints (fun p => p.1 == fp)
      (fun p => (p.1, { p.2 with escalated := true }))
    { st2 with fingerprints := fps3 }

/-- `_auto_escalate_to_incident` (main.py lines 1284-1371).  In the model no
exception can occur, so an incident (existing-updated or newly created) is
always returned — the caller's `if incident:` test always passes. -/
def auto_escalate_to_incident (st : IngestState) (ta : ThreatAlertRec)
    (a : ActivityInput) (score : ScoreData) (explanation : String)
    (now : ℚ) : IngestState :=
  let cutoff := now - incidentDedupWindow
  let existing := latestIncident (st.incidents.filter (fun i =>
    i.user_id == a.user_id && decide (cutoff ≤ i.timestamp) &&
    (i.status == "open" || i.status == "in_progress")))
  match existing with
  | some inc =>
    let incidents2 := updateWhere st.incidents
      (fun i => i.incident_id == inc.incident_id)
      (fun i =>
        let i1 := if i.its_score < score.its_score then
            { i with its_score := score.its_score,
                     ml_incident_score := score.its_score / 100 }
          else i
        let i2 := if (ta.risk_level == "high" || ta.risk_level == "critical")
            && !(i1.severity == "high" || i1.severity == "critical") then
            { i1 with severity := ta.risk_level }
          else i1
        { i2 with last_updated := some now })
    { st with incidents := incidents2 }
  | none =>
    let incident_type := determine_incident_type a explanation
    let severity :=
      if ta.risk_level == "low" || ta.risk_level == "medium" ||
         ta.risk_level == "high" || ta.risk_level == "critical"
      then ta.risk_level
      else if 75 ≤ score.its_score then "critical"
      else if 50 ≤ score.its_score then "high"
      else if 25 ≤ score.its_score then "medium"
      else "low"
    let description :=
      (if explanation == "" then "Auto-escalated from alert" else explanation) ++
      (if ta.anomalies ≠ [] then
        ". Anomalies: " ++ String.intercalate ", " (ta.anomalies.take 3)
       else "")
    let incident : IncidentRec :=
      { incident_id := st.incidents.length + 1
        user_id := a.user_id
        timestamp := now
        incident_type := incident_type
        severity := severity
        ml_incident_score := score.its_score / 100
        its_score := score.its_score
        description := description
        status := "open"
        last_updated := none }
    { st with incidents := st.incidents ++ [incident] }

/-- The `NameError` raised when the function-level `return` at main.py line
1184 reads the local `threat_alert` on a path that never bound it; the
blanket `except Exception` at line 1219 turns it into
`HTTPException(500, str(e))`.  (The Python detail string quotes the name:
`name` then `threat_alert` in single quotes then `is not defined`.) -/
def nameErrorResult : IngestResult :=
  .httpError 500 "name threat_alert is not defined"

/-- The alert-update path of `ingest_activity` (main.py lines 1080-1100):
every mutation is committed, then the function-level return at line 1184
reads the unbound local `threat_alert` => NameError => 500. -/
def ingest_update_alert (st : IngestState) (a : ActivityInput) (now : ℚ)
    (det : DetectorOutcome) (score : ScoreData) (al : AnomalyAlertRec) :
    IngestState × IngestResult :=
  let risk_level := risk_level_of det.ml_score score.its_score
  let anomalies_list := anomalies_list_of det.explanation a.activity_type
  let alert_timestamp := now
  let alerts1 := updateWhere st.anomaly_alerts
    (fun x => x.alert_id == al.alert_id)
    (fun x => { x with timestamp := alert_timestamp,
                       ml_anomaly_score := det.ml_score,
                       confidence := min (det.ml_score + 1/10) 1 })
  let st1 := { st with anomaly_alerts := alerts1 }
  let st2 :=
    match latestThreatAlert
      (st1.threat_alerts.filter (fun t => t.user_id == a.user_id)) with
    | some ta =>
      let tas := updateWhere st1.threat_alerts
        (fun t => t.alert_id == ta.alert_id)
        (fun t => { t with timestamp := alert_timestamp,
                           its_score := score.its_score,
                           risk_level := risk_level,
                           anomalies := anomalies_list,
                           explanation := det.explanation })
      { st1 with threat_alerts := tas }
    | none => st1
  (st2, nameErrorResult)

/-- The alert-creation path of `ingest_activity` (main.py lines 1102-1182)
followed by the function-level return (lines 1184-1199), on which every local
is bound. -/
def ingest_create_alert (st : IngestState) (a : ActivityInput) (now : ℚ)
    (det : DetectorOutcome) (fp : String) (score : ScoreData) :
    IngestState × IngestResult :=
  let risk_level := risk_level_of det.ml_score score.its_score
  let anomalies_list := anomalies_list_of det.explanation a.activity_type
  let alert_timestamp := now
  let anomaly_alert : AnomalyAlertRec :=
    { alert_id := st.anomaly_alerts.length + 1
      user_id := a.user_id
      timestamp := alert_timestamp
      anomaly_type := a.activity_type
      anomaly_fingerprint := fp
      ml_anomaly_score := det.ml_score
      confidence := det.ml_score
      status := "new"
      suppressed_until := some (now + alertSuppressionWindow)
      escalated_to_threat_id := none }
  let st1 := { st with anomaly_alerts := st.anomaly_alerts ++ [anomaly_alert] }
  let threat_alert : ThreatAlertRec :=
    { alert_id := st1.threat_alerts.length + 1
      user_id := a.user_id
      timestamp := alert_timestamp
      its_score := score.its_score
      risk_level := risk_level
      anomalies := anomalies_list
      explanation :=
        if det.explanation == "" then
          "ML anomaly detected. " ++ a.activity_type ++ " activity flagged."
        else det.explanation
      status := "open"
      is_viewed := false }
  let st2 := { st1 with threat_alerts := st1.threat_alerts ++ [threat_alert] }
  let fps3 := updateWhere st2.fingerprints (fun p => p.1 == fp)
    (fun p => (p.1, { p.2 with
      suppressed_until := anomaly_alert.suppressed_until }))
  let st3 := { st2 with fingerprints := fps3 }
  let st4 :=
    if THREAT_ESCALATION_THRESHOLD ≤ det.ml_score then
      escalate_to_threat st3 anomaly_alert.alert_id fp a det.ml_score
        det.explanation score now
    else st3
  let st5 :=
    if should_escalate_to_incident risk_level score.its_score det.ml_score then
      let st5a := auto_escalate_to_incident st4 threat_alert a score
        det.explanation now
      let tas5 := updateWhere st5a.threat_alerts
        (fun t => t.alert_id == threat_alert.alert_id)
        (fun t => { t with status := "escalated_to_incident",
                           anomalies := t.anomalies ++
                             ["Auto-escalated to incident"] })
      { st5a with threat_alerts := tas5 }
    else st4
  let users6 := updateWhere st5.users (fun u => u.user_id == a.user_id)
    (fun u => { u with its_score := score.its_score,
                       risk_level := score.risk_level })
  let st6 := { st5 with users := users6 }
  (st6, .response "alert_generated" true (some score.its_score)
    (some { ml_score := det.ml_score
            its_score := score.its_score
            risk_level := risk_level
            anomalies := anomalies_list
            explanation := det.explanation
            timestamp := alert_timestamp }) none)

/-- The body of `ingest_activity` after the fingerprint bookkeeping decided
to continue (neither suppressed nor already escalated): main.py lines
1034-1199. -/
def ingest_after_fingerprint (st : IngestState) (a : ActivityInput) (now : ℚ)
    (det : DetectorOutcome) (fp : String) (score : ScoreData) :
    IngestState × IngestResult :=
  if det.is_anomaly ∧ 3/10 ≤ det.ml_score then
    match st.anomaly_alerts.find? (fun al => al.anomaly_fingerprint == fp) with
    | some al => ingest_update_alert st a now det score al
    | none => ingest_create_alert st a now det fp score
  else
    -- Lines 1184-1199: the function-level return runs unconditionally and
    -- reads `threat_alert`, unbound on this path => NameError => 500.  The
    -- block at lines 1201-1218 (update ITS, save the daily snapshot, return
    -- status=ok) is unreachable.
    (st, nameErrorResult)

/-- `POST /api/activities/ingest` (main.py lines 927-1226).  An unknown user
raises `HTTPException(404, ...)` inside the `try`, which the blanket
`except Exception` converts to a 500 whose detail is the exception's string
form.  Every database mutation that precedes a failure point has already been
committed, so the final `db.rollback()` discards nothing. -/
def ingest_activity (st : IngestState) (a : ActivityInput) (now : ℚ)
    (det : DetectorOutcome) (fp : String) (score : ScoreData) :
    IngestState × IngestResult :=
  if (st.users.find? (fun u => u.user_id == a.user_id)).isNone then
    (st, .httpError 500 ("404: User " ++ a.user_id ++ " not found"))
  else
    let activity_log : ActivityRec :=
      { user_id := a.user_id
        timestamp := a.timestamp
        activity_type := a.activity_type
        details_external := a.details_external
        details_sensitive := a.details_sensitive
        details_blob := a.details_blob }
    let st0 := { st with activity_logs := st.activity_logs ++ [activity_log] }
    match List.lookup fp st0.fingerprints with
    | some r =>
      let r1 := { r with last_seen := now, count := r.count + 1 }
      let fps1 := updateWhere st0.fingerprints (fun p => p.1 == fp)
        (fun _ => (fp, r1))
      let st1 := { st0 with fingerprints := fps1 }
      if (match r1.suppressed_until with
          | some t => decide (now < t)
          | none => false) then
        (st1, .response "suppressed" true none none
          (some "Duplicate anomaly suppressed"))
      else if r1.escalated then
        (st1, .response "already_escalated" true none none none)
      else
        ingest_after_fingerprint st1 a now det fp score
    | none =>
      let r1 : FingerprintRec :=
        { user_id := a.user_id
          anomaly_type := a.activity_type
          first_seen := now
          last_seen := now
          count := 1
          suppressed_until := none
          escalated := false }
      let st1 := { st0 with fingerprints := st0.fingerprints ++ [(fp, r1)] }
      ingest_after_fingerprint st1 a now det fp score

/-! ### List and association-list lemmas for the ingest proofs -/

section AssocLemmas

variable {γ : Type} {α : Type} {β : Type}

lemma updateWhere_nil (q : α → Bool) (f : α → α) :
    updateWhere ([] : List α) q f = [] := rfl

lemma updateWhere_cons (a : α) (t : List α) (q : α → Bool) (f : α → α) :
    updateWhere (a :: t) q f = (if q a then f a else a) :: updateWhere t q f :=
  rfl

lemma lookup_key_head (t : List (String × γ)) (k : String) (v : γ) :
    List.lookup k ((k, v) :: t) = some v := by
  rw [List.lookup, show (k == k) = true from beq_self_eq_true k]

lemma lookup_head_ne (t : List (String × γ)) (k a : String) (v : γ)
    (h : k ≠ a) : List.lookup k ((a, v) :: t) = List.lookup k t := by
  rw [List.lookup, show (k == a) = false from beq_eq_false_iff_ne.mpr h]

lemma lookup_append_of_none (l t : List (String × γ)) (k : String)
    (h : List.lookup k l = none) :
    List.lookup k (l ++ t) = List.lookup k t := by
  induction l with
  | nil => simp
  | cons p l' ih =>
    obtain ⟨a, b⟩ := p
    by_cases hk : k = a
    · subst hk
      rw [lookup_key_head] at h
      cases h
    · rw [List.cons_append, lookup_head_ne _ _ _ _ hk]
      exact ih (by rwa [lookup_head_ne _ _ _ _ hk] at h)

lemma lookup_updateWhere_self (l : List (String × γ)) (k : String)
    (f : String × γ → String × γ) (hf : ∀ v, (f (k, v)).1 = k) :
    List.lookup k (updateWhere l (fun p => p.1 == k) f) =
      (List.lookup k l).map (fun v => (f (k, v)).2) := by
  induction l with
  | nil => rfl
  | cons p t ih =>
    obtain ⟨a, b⟩ := p
    by_cases hk : k = a
    · subst hk
      rcases hfb : f (k, b) with ⟨c, d⟩
      have hc : c = k := by
        have := hf b
        rw [hfb] at this
        exact this
      subst hc
      rw [updateWhere_cons, if_pos (beq_self_eq_true c), hfb,
        lookup_key_head, lookup_key_head]
      simp [hfb]
    · rw [updateWhere_cons, if_neg (by simp [beq_iff_eq]; exact fun h => hk h.symm),
        lookup_head_ne _ _ _ _ hk, lookup_head_ne _ _ _ _ hk]
      exact ih

lemma lookup_updateWhere_other (l : List (String × γ)) (k k' : String)
    (f : String × γ → String × γ) (hf : ∀ v, (f (k, v)).1 = k)
    (hne : k' ≠ k) :
    List.lookup k' (updateWhere l (fun p => p.1 == k) f) =
      List.lookup k' l := by
  induction l with
  | nil => rfl
  | cons p t ih =>
    obtain ⟨a, b⟩ := p
    by_cases hk : a = k
    · subst hk
      rcases hfb : f (a, b) with ⟨c, d⟩
      have hc : c = a := by
        have := hf b
        rw [hfb] at this
        exact this
      subst hc
      rw [updateWhere_cons, if_pos (beq_self_eq_true c), hfb,
        lookup_head_ne _ _ _ _ hne, lookup_head_ne _ _ _ _ hne]
      exact ih
    · rw [updateWhere_cons, if_neg (by simp [beq_iff_eq]; exact hk)]
      by_cases hk' : k' = a
      · subst hk'
        rw [lookup_key_head, lookup_key_head]
      · rw [lookup_head_ne _ _ _ _ hk', lookup_head_ne _ _ _ _ hk', ih]

lemma filter_map_updateWhere (l : List α) (q : α → Bool) (f : α → α)
    (p : α → Bool) (h : α → β)
    (hp : ∀ x, p (f x) = p x) (hh : ∀ x, p x = true → h (f x) = h x) :
    ((updateWhere l q f).filter p).map h = (l.filter p).map h := by
  induction l with
  | nil => rfl
  | cons a t ih =>
    rw [updateWhere_cons]
    by_cases hq : q a
    · rw [if_pos hq]
      by_cases hpa : p a
      · rw [List.filter_cons_of_pos (by rw [hp]; exact hpa),
          List.filter_cons_of_pos hpa]
        simp only [List.map_cons, hh a hpa, ih]
      · rw [List.filter_cons_of_neg (by rw [hp]; simpa using hpa),
          List.filter_cons_of_neg (by simpa using hpa)]
        exact ih
    · rw [if_neg hq]
      by_cases hpa : p a
      · rw [List.filter_cons_of_pos hpa, List.filter_cons_of_pos hpa]
        simp only [List.map_cons, ih]
      · rw [List.filter_cons_of_neg (by simpa using hpa),
          List.filter_cons_of_neg (by simpa using hpa)]
        exact ih

lemma any_updateWhere (l : List α) (q : α → Bool) (f : α → α)
    (p : α → Bool) (hp : ∀ x, p (f x) = p x) :
    (updateWhere l q f).any p = l.any p := by
  induction l with
  | nil => rfl
  | cons a t ih =>
    rw [updateWhere_cons, List.any_cons, List.any_cons]
    by_cases hq : q a
    · rw [if_pos hq, hp, ih]
    · rw [if_neg hq, ih]

end AssocLemmas

/-! ### Branch lemmas for the ingest handler -/

lemma updateWhere_append {α : Type} (l₁ l₂ : List α) (q : α → Bool)
    (f : α → α) :
    updateWhere (l₁ ++ l₂) q f = updateWhere l₁ q f ++ updateWhere l₂ q f :=
  List.map_append _ _ _

lemma escalate_to_threat_preserves (st : IngestState) (aid : ℕ) (fp : String)
    (a : ActivityInput) (ml : ℚ) (ex : String) (sc : ScoreData) (now : ℚ) :
    (escalate_to_threat st aid fp a ml ex sc now).activity_logs =
      st.activity_logs ∧
    (escalate_to_threat st aid fp a ml ex sc now).threat_alerts =
      st.threat_alerts ∧
    (escalate_to_threat st aid fp a ml ex sc now).users = st.users ∧
    (escalate_to_threat st aid fp a ml ex sc now).incidents = st.incidents := by
  unfold escalate_to_threat
  split <;> exact ⟨rfl, rfl, rfl, rfl⟩

lemma auto_escalate_preserves (st : IngestState) (ta : ThreatAlertRec)
    (a : ActivityInput) (sc : ScoreData) (ex : String) (now : ℚ) :
    (auto_escalate_to_incident st ta a sc ex now).activity_logs =
      st.activity_logs ∧
    (auto_escalate_to_incident st ta a sc ex now).anomaly_alerts =
      st.anomaly_alerts ∧
    (auto_escalate_to_incident st ta a sc ex now).threat_alerts =
      st.threat_alerts ∧
    (auto_escalate_to_incident st ta a sc ex now).users = st.users ∧
    (auto_escalate_to_incident st ta a sc ex now).fingerprints =
      st.fingerprints := by
  unfold auto_escalate_to_incident
  dsimp only
  rcases latestIncident (st.incidents.filter (fun i =>
      i.user_id == a.user_id && decide (now - incidentDedupWindow ≤ i.timestamp)
      && (i.status == "open" || i.status == "in_progress"))) with _ | inc <;>
    exact ⟨rfl, rfl, rfl, rfl, rfl⟩

lemma escalate_to_threat_alerts_proj (st : IngestState) (aid : ℕ)
    (fp' : String) (a : ActivityInput) (ml : ℚ) (ex : String) (sc : ScoreData)
    (now : ℚ) (fp : String) :
    (((escalate_to_threat st aid fp' a ml ex sc now).anomaly_alerts.filter
        (fun al => al.anomaly_fingerprint == fp)).map
      (fun al => (al.suppressed_until, al.timestamp))) =
    ((st.anomaly_alerts.filter (fun al => al.anomaly_fingerprint == fp)).map
      (fun al => (al.suppressed_until, al.timestamp))) := by
  unfold escalate_to_threat
  split
  · rfl
  · exact filter_map_updateWhere _ _ _ _ _ (fun x => rfl) (fun x _ => rfl)

lemma escalate_to_threat_fingerprint_suppressed (st : IngestState) (aid : ℕ)
    (fp : String) (a : ActivityInput) (ml : ℚ) (ex : String) (sc : ScoreData)
    (now : ℚ) (k : String) :
    (List.lookup k
        (escalate_to_threat st aid fp a ml ex sc now).fingerprints).map
      (fun r => r.suppressed_until) =
    (List.lookup k st.fingerprints).map (fun r => r.suppressed_until) := by
  unfold escalate_to_threat
  split
  · rfl
  · by_cases hk : k = fp
    · subst hk
      rw [lookup_updateWhere_self _ _ _ (fun v => rfl)]
      cases List.lookup k st.fingerprints <;> rfl
    · rw [lookup_updateWhere_other _ _ _ _ (fun v => rfl) hk]

lemma ingest_create_alert_spec (st : IngestState) (a : ActivityInput)
    (now : ℚ) (det : DetectorOutcome) (fp : String) (score : ScoreData)
    (halert0 : st.anomaly_alerts.filter
      (fun al => al.anomaly_fingerprint == fp) = []) :
    (ingest_create_alert st a now det fp score).2 =
      .response "alert_generated" true (some score.its_score)
        (some { ml_score := det.ml_score
                its_score := score.its_score
                risk_level := risk_level_of det.ml_score score.its_score
                anomalies := anomalies_list_of det.explanation a.activity_type
                explanation := det.explanation
                timestamp := now }) none ∧
    (ingest_create_alert st a now det fp score).1.activity_logs =
      st.activity_logs ∧
    ((ingest_create_alert st a now det fp score).1.anomaly_alerts.filter
        (fun al => al.anomaly_fingerprint == fp)).map
      (fun al => (al.suppressed_until, al.timestamp)) =
      [(some (now + alertSuppressionWindow), now)] ∧
    (List.lookup fp
        (ingest_create_alert st a now det fp score).1.fingerprints).map
      (fun r => r.suppressed_until) =
      (List.lookup fp st.fingerprints).map
        (fun _ => some (now + alertSuppressionWindow)) ∧
    (ingest_create_alert st a now det fp score).1.users.any
        (fun u => u.user_id == a.user_id) =
      st.users.any (fun u => u.user_id == a.user_id) ∧
    ((ingest_create_alert st a now det fp score).1.threat_alerts.getLast?).map
        (fun t => t.status) =
      some (if should_escalate_to_incident
          (risk_level_of det.ml_score score.its_score) score.its_score
          det.ml_score then "escalated_to_incident" else "open") := by
  refine ⟨rfl, ?_, ?_, ?_, ?_, ?_⟩ <;>
    (unfold ingest_create_alert
     dsimp only
     split_ifs <;>
       (simp [escalate_to_threat_preserves, auto_escalate_preserves,
          escalate_to_threat_alerts_proj,
          escalate_to_threat_fingerprint_suppressed, halert0,
          List.filter_append, updateWhere_append, updateWhere_cons,
          updateWhere_nil, List.getLast?_concat, any_updateWhere,
          lookup_updateWhere_self, lookup_updateWhere_other] <;>
        (cases List.lookup fp st.fingerprints <;> rfl)))

lemma ingest_after_fingerprint_create (st' : IngestState) (a : ActivityInput)
    (now : ℚ) (det : DetectorOutcome) (fp : String) (score : ScoreData)
    (hanom : det.is_anomaly = true) (hml : 3/10 ≤ det.ml_score)
    (hfind : st'.anomaly_alerts.find?
      (fun al => al.anomaly_fingerprint == fp) = none) :
    ingest_after_fingerprint st' a now det fp score =
      ingest_create_alert st' a now det fp score := by
  unfold ingest_after_fingerprint
  rw [if_pos ⟨hanom, hml⟩, hfind]

lemma ingest_after_fingerprint_no_alert (st' : IngestState)
    (a : ActivityInput) (now : ℚ) (det : DetectorOutcome) (fp : String)
    (score : ScoreData)
    (h : ¬ (det.is_anomaly = true ∧ 3/10 ≤ det.ml_score)) :
    ingest_after_fingerprint st' a now det fp score = (st', nameErrorResult) := by
  unfold ingest_after_fingerprint
  rw [if_neg h]

lemma ingest_activity_fresh_fp (st : IngestState) (a : ActivityInput)
    (now : ℚ) (det : DetectorOutcome) (fp : String) (score : ScoreData)
    (u₀ : UserRec)
    (hu : st.users.find? (fun u => u.user_id == a.user_id) = some u₀)
    (hfp0 : List.lookup fp st.fingerprints = none) :
    ingest_activity st a now det fp score =
      ingest_after_fingerprint
        { st with
            activity_logs := st.activity_logs ++
              [⟨a.user_id, a.timestamp, a.activity_type, a.details_external,
                a.details_sensitive, a.details_blob⟩],
            fingerprints := st.fingerprints ++
              [(fp, ⟨a.user_id, a.activity_type, now, now, 1, none, false⟩)] }
        a now det fp score := by
  unfold ingest_activity
  rw [hu]
  dsimp only [Option.isNone]
  rw [if_neg (by simp)]
  rw [hfp0]

lemma ingest_suppressed_path (st : IngestState) (a : ActivityInput) (now : ℚ)
    (det : DetectorOutcome) (fp : String) (score : ScoreData)
    (u₀ : UserRec) (r : FingerprintRec) (T : ℚ)
    (hu : st.users.find? (fun u => u.user_id == a.user_id) = some u₀)
    (hfp : List.lookup fp st.fingerprints = some r)
    (hsup : r.suppressed_until = some T) (hT : now < T) :
    ingest_activity st a now det fp score =
      ({ st with
          activity_logs := st.activity_logs ++
            [⟨a.user_id, a.timestamp, a.activity_type, a.details_external,
              a.details_sensitive, a.details_blob⟩],
          fingerprints := updateWhere st.fingerprints (fun p => p.1 == fp)
            (fun _ => (fp, { r with last_seen := now, count := r.count + 1 })) },
        .response "suppressed" true none none
          (some "Duplicate anomaly suppressed")) := by
  unfold ingest_activity
  rw [hu]
  dsimp only [Option.isNone]
  rw [if_neg (by simp)]
  rw [hfp]
  dsimp only
  rw [hsup]
  dsimp only
  rw [if_pos (decide_eq_true hT)]

/-! ## C3: duplicate event within the suppression window -/

/-- C3: sending the same activity twice within the 24-hour suppression window
produces exactly one new alert.  The first call creates the alert with
`suppressed_until = now + 24h` on the alert and on its fingerprint and
returns `alert_generated`; the second call returns `suppressed`, still
persists the activity, and its only other effect is fingerprint bookkeeping
(last-seen and count). -/
theorem duplicate_event_single_alert
    (st : IngestState) (a : ActivityInput) (now₁ now₂ : ℚ)
    (det det₂ : DetectorOutcome) (fp : String) (score score₂ : ScoreData)
    (u₀ : UserRec)
    (hu : st.users.find? (fun u => u.user_id == a.user_id) = some u₀)
    (hfp0 : List.lookup fp st.fingerprints = none)
    (halert0 : st.anomaly_alerts.filter
      (fun al => al.anomaly_fingerprint == fp) = [])
    (hanom : det.is_anomaly = true) (hml : 3/10 ≤ det.ml_score)
    (hwin : now₂ < now₁ + alertSuppressionWindow) :
    ∃ st₁ r₁ st₂ r₂,
      ingest_activity st a now₁ det fp score = (st₁, r₁) ∧
      ingest_activity st₁ a now₂ det₂ fp score₂ = (st₂, r₂) ∧
      (st₁.anomaly_alerts.filter (fun al => al.anomaly_fingerprint == fp)).map
        (fun al => (al.suppressed_until, al.timestamp)) =
        [(some (now₁ + alertSuppressionWindow), now₁)] ∧
      (∃ pl, r₁ = .response "alert_generated" true (some score.its_score)
        (some pl) none) ∧
      r₂ = .response "suppressed" true none none
        (some "Duplicate anomaly suppressed") ∧
      st₂.activity_logs = st₁.activity_logs ++
        [⟨a.user_id, a.timestamp, a.activity_type, a.details_external,
          a.details_sensitive, a.details_blob⟩] ∧
      st₂.anomaly_alerts = st₁.anomaly_alerts ∧
      st₂.threat_alerts = st₁.threat_alerts ∧
      st₂.threats = st₁.threats ∧
      st₂.incidents = st₁.incidents ∧
      st₂.users = st₁.users ∧
      (∃ r, List.lookup fp st₁.fingerprints = some r ∧
        r.suppressed_until = some (now₁ + alertSuppressionWindow) ∧
        List.lookup fp st₂.fingerprints =
          some { r with last_seen := now₂, count := r.count + 1 }) ∧
      (∀ k, k ≠ fp →
        List.lookup k st₂.fingerprints = List.lookup k st₁.fingerprints) := by
  have key1 := ingest_activity_fresh_fp st a now₁ det fp score u₀ hu hfp0
  set stA : IngestState :=
    { st with
        activity_logs := st.activity_logs ++
          [⟨a.user_id, a.timestamp, a.activity_type, a.details_external,
            a.details_sensitive, a.details_blob⟩],
        fingerprints := st.fingerprints ++
          [(fp, ⟨a.user_id, a.activity_type, now₁, now₁, 1, none, false⟩)] }
    with hstA
  have hfindA : stA.anomaly_alerts.find?
      (fun al => al.anomaly_fingerprint == fp) = none := by
    apply List.find?_eq_none.mpr
    intro x hx
    simpa using List.filter_eq_nil_iff.mp halert0 x hx
  have key2 := ingest_after_fingerprint_create stA a now₁ det fp score
    hanom hml hfindA
  obtain ⟨hres, hlogs, halerts, hfps, husers, hstatus⟩ :=
    ingest_create_alert_spec stA a now₁ det fp score halert0
  set out₁ := ingest_create_alert stA a now₁ det fp score with hout₁
  -- fingerprint of the first call
  have hlookA : List.lookup fp stA.fingerprints =
      some ⟨a.user_id, a.activity_type, now₁, now₁, 1, none, false⟩ := by
    rw [hstA]
    dsimp only
    rw [lookup_append_of_none _ _ _ hfp0, lookup_key_head]
  have hfps' : (List.lookup fp out₁.1.fingerprints).map
      (fun r => r.suppressed_until) =
      some (some (now₁ + alertSuppressionWindow)) := by
    rw [hfps, hlookA]
    rfl
  obtain ⟨r', hr', hrsup⟩ := Option.map_eq_some'.mp hfps'
  -- known user after the first call
  have hpu := List.find?_some hu
  have hanyst : st.users.any (fun u => u.user_id == a.user_id) = true := by
    apply List.any_eq_true.mpr
    exact ⟨u₀, List.mem_of_find?_eq_some hu, hpu⟩
  have hany₁ : out₁.1.users.any (fun u => u.user_id == a.user_id) = true := by
    rw [husers]
    exact hanyst
  have hfind₁ : ∃ u₁, out₁.1.users.find?
      (fun u => u.user_id == a.user_id) = some u₁ := by
    rw [← Option.isSome_iff_exists, List.find?_isSome]
    exact List.any_eq_true.mp hany₁
  obtain ⟨u₁, hu₁⟩ := hfind₁
  have key3 := ingest_suppressed_path out₁.1 a now₂ det₂ fp score₂ u₁ r'
    (now₁ + alertSuppressionWindow) hu₁ hr' hrsup hwin
  refine ⟨out₁.1, out₁.2,
    { out₁.1 with
        activity_logs := out₁.1.activity_logs ++
          [⟨a.user_id, a.timestamp, a.activity_type, a.details_external,
            a.details_sensitive, a.details_blob⟩],
        fingerprints := updateWhere out₁.1.fingerprints (fun p => p.1 == fp)
          (fun _ => (fp, { r' with last_seen := now₂, count := r'.count + 1 })) },
    .response "suppressed" true none none (some "Duplicate anomaly suppressed"),
    ?_, ?_, ?_, ?_, ?_, ?_, ?_, ?_, ?_, ?_, ?_, ?_, ?_⟩
  · rw [key1, key2]
  · exact key3
  · exact halerts
  · exact ⟨_, hres⟩
  · rfl
  · rfl
  · rfl
  · rfl
  · rfl
  · rfl
  · rfl
  · refine ⟨r', hr', hrsup, ?_⟩
    show List.lookup fp (updateWhere out₁.1.fingerprints
      (fun p => p.1 == fp)
      (fun _ => (fp, { r' with last_seen := now₂, count := r'.count + 1 }))) =
      some { r' with last_seen := now₂, count := r'.count + 1 }
    rw [lookup_updateWhere_self _ _ _ (fun v => rfl), hr']
    rfl
  · intro k hk
    show List.lookup k (updateWhere out₁.1.fingerprints
      (fun p => p.1 == fp)
      (fun _ => (fp, { r' with last_seen := now₂, count := r'.count + 1 }))) =
      List.lookup k out₁.1.fingerprints
    exact lookup_updateWhere_other _ _ _ _ (fun v => rfl) hk

def w3User : UserRec := ⟨"U002", 10, "low"⟩

def w3State : IngestState := ⟨[w3User], [], [], [], [], [], []⟩

def w3Act : ActivityInput := ⟨"U002", 0, "email", true, false, "attachment"⟩

def w3Det : DetectorOutcome := ⟨true, 1/2, "External email with attachment"⟩

def w3Score : ScoreData := ⟨10, "low"⟩

theorem duplicate_event_single_alert_witness :
    ∃ st₁ r₁ st₂ r₂,
      ingest_activity w3State w3Act 0 w3Det "fpA" w3Score = (st₁, r₁) ∧
      ingest_activity st₁ w3Act (1/2) w3Det "fpA" w3Score = (st₂, r₂) ∧
      (st₁.anomaly_alerts.filter
        (fun al => al.anomaly_fingerprint == "fpA")).map
        (fun al => (al.suppressed_until, al.timestamp)) =
        [(some ((0 : ℚ) + alertSuppressionWindow), 0)] ∧
      (∃ pl, r₁ = .response "alert_generated" true (some w3Score.its_score)
        (some pl) none) ∧
      r₂ = .response "suppressed" true none none
        (some "Duplicate anomaly suppressed") ∧
      st₂.activity_logs = st₁.activity_logs ++
        [⟨w3Act.user_id, w3Act.timestamp, w3Act.activity_type,
          w3Act.details_external, w3Act.details_sensitive,
          w3Act.details_blob⟩] ∧
      st₂.anomaly_alerts = st₁.anomaly_alerts ∧
      st₂.threat_alerts = st₁.threat_alerts ∧
      st₂.threats = st₁.threats ∧
      st₂.incidents = st₁.incidents ∧
      st₂.users = st₁.users ∧
      (∃ r, List.lookup "fpA" st₁.fingerprints = some r ∧
        r.suppressed_until = some ((0 : ℚ) + alertSuppressionWindow) ∧
        List.lookup "fpA" st₂.fingerprints =
          some { r with last_seen := (1/2 : ℚ), count := r.count + 1 }) ∧
      (∀ k, k ≠ "fpA" →
        List.lookup k st₂.fingerprints = List.lookup k st₁.fingerprints) :=
  duplicate_event_single_alert w3State w3Act 0 (1/2) w3Det w3Det "fpA"
    w3Score w3Score w3User
    (by simp [w3State, w3User, w3Act, List.find?])
    rfl rfl rfl (by norm_num [w3Det])
    (by norm_num [alertSuppressionWindow])

/-! ## C5: risk band and auto-promotion at alert creation -/

/-- The risk band exactly as claim C5 words it: critical if
`ml ≥ 0.80 ∨ its ≥ 70`; high if `ml ≥ 0.60 ∨ its ≥ 50`; medium if
`ml ≥ 0.40 ∨ its ≥ 30`; low otherwise. -/
def risk_level_claimed (ml_score its_score : ℚ) : String :=
  if 8/10 ≤ ml_score ∨ 70 ≤ its_score then "critical"
  else if 6/10 ≤ ml_score ∨ 50 ≤ its_score then "high"
  else if 4/10 ≤ ml_score ∨ 30 ≤ its_score then "medium"
  else "low"

/-- The auto-promotion condition exactly as claim C5 words it. -/
def auto_promote_claimed (ml_score its_score : ℚ) : Prop :=
  risk_level_claimed ml_score its_score = "critical" ∨
  (risk_level_claimed ml_score its_score = "high" ∧ 50 ≤ its_score) ∨
  (risk_level_claimed ml_score its_score = "high" ∧ 7/10 ≤ ml_score) ∨
  65 ≤ its_score

lemma should_escalate_iff (ml its : ℚ) :
    (should_escalate_to_incident (risk_level_of ml its) its ml = true) ↔
      auto_promote_claimed ml its := by
  unfold should_escalate_to_incident auto_promote_claimed
  rw [show risk_level_claimed = risk_level_of from rfl]
  simp only [Bool.or_eq_true, Bool.and_eq_true, beq_iff_eq,
    decide_eq_true_eq]
  tauto

/-- C5: on the alert-creation path the risk band attached to the new alert is
the claim's band of `(ml_score, its)`, and the dashboard alert is marked
`escalated_to_incident` (after auto-promotion to an incident) exactly when
risk is critical, or risk is high with `its ≥ 50` or `ml ≥ 0.70`, or
`its ≥ 65`. -/
theorem risk_band_and_auto_promotion
    (st : IngestState) (a : ActivityInput) (now : ℚ) (det : DetectorOutcome)
    (fp : String) (score : ScoreData) (u₀ : UserRec)
    (hu : st.users.find? (fun u => u.user_id == a.user_id) = some u₀)
    (hfp0 : List.lookup fp st.fingerprints = none)
    (halert0 : st.anomaly_alerts.filter
      (fun al => al.anomaly_fingerprint == fp) = [])
    (hanom : det.is_anomaly = true) (hml : 3/10 ≤ det.ml_score) :
    ∃ st₁ pl,
      ingest_activity st a now det fp score =
        (st₁, .response "alert_generated" true (some score.its_score)
          (some pl) none) ∧
      pl.risk_level = risk_level_claimed det.ml_score score.its_score ∧
      ((st₁.threat_alerts.getLast?).map (fun t => t.status) =
          some "escalated_to_incident" ↔
        auto_promote_claimed det.ml_score score.its_score) := by
  have key1 := ingest_activity_fresh_fp st a now det fp score u₀ hu hfp0
  set stA : IngestState :=
    { st with
        activity_logs := st.activity_logs ++
          [⟨a.user_id, a.timestamp, a.activity_type, a.details_external,
            a.details_sensitive, a.details_blob⟩],
        fingerprints := st.fingerprints ++
          [(fp, ⟨a.user_id, a.activity_type, now, now, 1, none, false⟩)] }
    with hstA
  have hfindA : stA.anomaly_alerts.find?
      (fun al => al.anomaly_fingerprint == fp) = none := by
    apply List.find?_eq_none.mpr
    intro x hx
    simpa using List.filter_eq_nil_iff.mp halert0 x hx
  have key2 := ingest_after_fingerprint_create stA a now det fp score
    hanom hml hfindA
  obtain ⟨hres, hlogs, halerts, hfps, husers, hstatus⟩ :=
    ingest_create_alert_spec stA a now det fp score halert0
  set out₁ := ingest_create_alert stA a now det fp score with hout₁
  refine ⟨out₁.1,
    { ml_score := det.ml_score
      its_score := score.its_score
      risk_level := risk_level_of det.ml_score score.its_score
      anomalies := anomalies_list_of det.explanation a.activity_type
      explanation := det.explanation
      timestamp := now }, ?_, ?_, ?_⟩
  · rw [key1, key2]
    exact Prod.ext rfl hres
  · rfl
  · rw [hstatus]
    by_cases hesc : should_escalate_to_incident
        (risk_level_of det.ml_score score.its_score) score.its_score
        det.ml_score = true
    · rw [if_pos hesc]
      exact iff_of_true rfl ((should_escalate_iff _ _).mp hesc)
    · rw [if_neg hesc]
      constructor
      · intro hcontra
        simp at hcontra
      · intro hclaim
        exact absurd ((should_escalate_iff _ _).mpr hclaim) hesc

def w5User : UserRec := ⟨"U007", 20, "low"⟩

def w5State : IngestState := ⟨[w5User], [], [], [], [], [], []⟩

def w5Act : ActivityInput := ⟨"U007", 2, "file_access", false, true, "secret"⟩

def w5Det : DetectorOutcome := ⟨true, 17/20, "Sensitive file access detected"⟩

def w5Score : ScoreData := ⟨80, "critical"⟩

theorem risk_band_and_auto_promotion_witness :
    ∃ st₁ pl,
      ingest_activity w5State w5Act 2 w5Det "fpB" w5Score =
        (st₁, .response "alert_generated" true (some w5Score.its_score)
          (some pl) none) ∧
      pl.risk_level = risk_level_claimed w5Det.ml_score w5Score.its_score ∧
      ((st₁.threat_alerts.getLast?).map (fun t => t.status) =
          some "escalated_to_incident" ↔
        auto_promote_claimed w5Det.ml_score w5Score.its_score) :=
  risk_band_and_auto_promotion w5State w5Act 2 w5Det "fpB" w5Score w5User
    (by simp [w5State, w5User, w5Act, List.find?])
    rfl rfl rfl (by norm_num [w5Det])

/-! ### Result shapes of the ingest handler -/

lemma ingest_update_alert_result (st' : IngestState) (a : ActivityInput)
    (now : ℚ) (det : DetectorOutcome) (score : ScoreData)
    (al : AnomalyAlertRec) :
    (ingest_update_alert st' a now det score al).2 = nameErrorResult := rfl

lemma ingest_update_alert_logs (st' : IngestState) (a : ActivityInput)
    (now : ℚ) (det : DetectorOutcome) (score : ScoreData)
    (al : AnomalyAlertRec) :
    (ingest_update_alert st' a now det score al).1.activity_logs =
      st'.activity_logs := by
  unfold ingest_update_alert
  dsimp only
  split <;> rfl

lemma ingest_create_alert_logs (st' : IngestState) (a : ActivityInput)
    (now : ℚ) (det : DetectorOutcome) (fp : String) (score : ScoreData) :
    (ingest_create_alert st' a now det fp score).1.activity_logs =
      st'.activity_logs := by
  unfold ingest_create_alert
  dsimp only
  split_ifs <;>
    simp [escalate_to_threat_preserves, auto_escalate_preserves]

lemma ingest_after_fingerprint_logs (st' : IngestState) (a : ActivityInput)
    (now : ℚ) (det : DetectorOutcome) (fp : String) (score : ScoreData) :
    (ingest_after_fingerprint st' a now det fp score).1.activity_logs =
      st'.activity_logs := by
  unfold ingest_after_fingerprint
  split_ifs with h
  · cases hF : st'.anomaly_alerts.find?
      (fun al => al.anomaly_fingerprint == fp) with
    | none => exact ingest_create_alert_logs st' a now det fp score
    | some al => exact ingest_update_alert_logs st' a now det score al
  · rfl

lemma ingest_after_result_shapes (st' : IngestState) (a : ActivityInput)
    (now : ℚ) (det : DetectorOutcome) (fp : String) (score : ScoreData) :
    (ingest_after_fingerprint st' a now det fp score).2 = nameErrorResult ∨
    ∃ pl, (ingest_after_fingerprint st' a now det fp score).2 =
      .response "alert_generated" true (some score.its_score) (some pl)
        none := by
  unfold ingest_after_fingerprint
  split_ifs with h
  · cases hF : st'.anomaly_alerts.find?
      (fun al => al.anomaly_fingerprint == fp) with
    | none => exact Or.inr ⟨_, rfl⟩
    | some al => exact Or.inl (ingest_update_alert_result st' a now det score al)
  · exact Or.inl rfl

lemma ingest_activity_existing_fp (st : IngestState) (a : ActivityInput)
    (now : ℚ) (det : DetectorOutcome) (fp : String) (score : ScoreData)
    (u₀ : UserRec) (r : FingerprintRec)
    (hu : st.users.find? (fun u => u.user_id == a.user_id) = some u₀)
    (hfp : List.lookup fp st.fingerprints = some r) :
    ingest_activity st a now det fp score =
      (let st1 : IngestState :=
        { st with
            activity_logs := st.activity_logs ++
              [⟨a.user_id, a.timestamp, a.activity_type, a.details_external,
                a.details_sensitive, a.details_blob⟩],
            fingerprints := updateWhere st.fingerprints (fun p => p.1 == fp)
              (fun _ =>
                (fp, { r with last_seen := now, count := r.count + 1 })) }
       if (match r.suppressed_until with
           | some t => decide (now < t)
           | none => false) = true then
        (st1, .response "suppressed" true none none
          (some "Duplicate anomaly suppressed"))
      else if r.escalated = true then
        (st1, .response "already_escalated" true none none none)
      else ingest_after_fingerprint st1 a now det fp score) := by
  unfold ingest_activity
  rw [hu]
  dsimp only [Option.isNone]
  rw [if_neg (by simp)]
  rw [hfp]

lemma ingest_shapes_known_user (st : IngestState) (a : ActivityInput)
    (now : ℚ) (det : DetectorOutcome) (fp : String) (score : ScoreData)
    (u₀ : UserRec)
    (hu : st.users.find? (fun u => u.user_id == a.user_id) = some u₀) :
    (ingest_activity st a now det fp score).2 = nameErrorResult ∨
    (ingest_activity st a now det fp score).2 =
      .response "suppressed" true none none
        (some "Duplicate anomaly suppressed") ∨
    (ingest_activity st a now det fp score).2 =
      .response "already_escalated" true none none none ∨
    ∃ pl, (ingest_activity st a now det fp score).2 =
      .response "alert_generated" true (some score.its_score) (some pl)
        none := by
  cases hL : List.lookup fp st.fingerprints with
  | none =>
    rw [ingest_activity_fresh_fp st a now det fp score u₀ hu hL]
    rcases ingest_after_result_shapes _ a now det fp score with h | ⟨pl, h⟩
    · exact Or.inl h
    · exact Or.inr (Or.inr (Or.inr ⟨pl, h⟩))
  | some r =>
    rw [ingest_activity_existing_fp st a now det fp score u₀ r hu hL]
    split_ifs with hS hE
    · exact Or.inr (Or.inl rfl)
    · exact Or.inr (Or.inr (Or.inl rfl))
    · rcases ingest_after_result_shapes _ a now det fp score with h | ⟨pl, h⟩
      · exact Or.inl h
      · exact Or.inr (Or.inr (Or.inr ⟨pl, h⟩))

lemma ingest_result_shapes (st : IngestState) (a : ActivityInput) (now : ℚ)
    (det : DetectorOutcome) (fp : String) (score : ScoreData) :
    (∃ d, (ingest_activity st a now det fp score).2 = .httpError 500 d) ∨
    (ingest_activity st a now det fp score).2 =
      .response "suppressed" true none none
        (some "Duplicate anomaly suppressed") ∨
    (ingest_activity st a now det fp score).2 =
      .response "already_escalated" true none none none ∨
    ∃ pl, (ingest_activity st a now det fp score).2 =
      .response "alert_generated" true (some score.its_score) (some pl)
        none := by
  by_cases hN : (st.users.find? (fun u => u.user_id == a.user_id)).isSome
  · obtain ⟨u₀, hu⟩ := Option.isSome_iff_exists.mp hN
    rcases ingest_shapes_known_user st a now det fp score u₀ hu with
      h | h | h | ⟨pl, h⟩
    · exact Or.inl ⟨_, h⟩
    · exact Or.inr (Or.inl h)
    · exact Or.inr (Or.inr (Or.inl h))
    · exact Or.inr (Or.inr (Or.inr ⟨pl, h⟩))
  · have hnone : st.users.find? (fun u => u.user_id == a.user_id) = none :=
      Option.not_isSome_iff_eq_none.mp hN
    unfold ingest_activity
    rw [hnone]
    exact Or.inl ⟨_, rfl⟩

lemma ingest_logs_known_user (st : IngestState) (a : ActivityInput)
    (now : ℚ) (det : DetectorOutcome) (fp : String) (score : ScoreData)
    (u₀ : UserRec)
    (hu : st.users.find? (fun u => u.user_id == a.user_id) = some u₀) :
    (ingest_activity st a now det fp score).1.activity_logs =
      st.activity_logs ++
        [⟨a.user_id, a.timestamp, a.activity_type, a.details_external,
          a.details_sensitive, a.details_blob⟩] := by
  cases hL : List.lookup fp st.fingerprints with
  | none =>
    rw [ingest_activity_fresh_fp st a now det fp score u₀ hu hL,
      ingest_after_fingerprint_logs]
  | some r =>
    rw [ingest_activity_existing_fp st a now det fp score u₀ r hu hL]
    split_ifs with hS hE
    · rfl
    · rfl
    · rw [ingest_after_fingerprint_logs]

/-! ## C7: which responses carry `its_score` -/

/-- C7 amended: an `alert_generated` response carries
`its_score = score_data.its_score`; `suppressed` and `already_escalated`
responses carry NO `its_score` field; and no request ever returns
`status=ok` (that block sits after the unconditional return and is
unreachable). -/
theorem ingest_its_score_by_status
    (st : IngestState) (a : ActivityInput) (now : ℚ) (det : DetectorOutcome)
    (fp : String) (score : ScoreData) (s : String) (lg : Bool)
    (its : Option ℚ) (pl : Option AlertPayload) (rsn : Option String)
    (h : (ingest_activity st a now det fp score).2 =
      .response s lg its pl rsn) :
    (s = "alert_generated" → its = some score.its_score) ∧
    ((s = "suppressed" ∨ s = "already_escalated") → its = none) ∧
    s ≠ "ok" := by
  rcases ingest_result_shapes st a now det fp score with
    ⟨d, he⟩ | hs | hae | ⟨pl', hg⟩
  · rw [he] at h
    cases h
  · rw [hs] at h
    injection h with h1 h2 h3 h4 h5
    subst h1
    subst h3
    exact ⟨fun hx => by simp at hx, fun _ => rfl, by simp⟩
  · rw [hae] at h
    injection h with h1 h2 h3 h4 h5
    subst h1
    subst h3
    exact ⟨fun hx => by simp at hx, fun _ => rfl, by simp⟩
  · rw [hg] at h
    injection h with h1 h2 h3 h4 h5
    subst h1
    subst h3
    refine ⟨fun _ => rfl, fun hx => ?_, by simp⟩
    rcases hx with hx | hx <;> simp at hx

def w7User : UserRec := ⟨"U003", 15, "low"⟩

def w7Fp : FingerprintRec := ⟨"U003", "email", 0, 0, 1, some 1, false⟩

def w7State : IngestState := ⟨[w7User], [], [("fp7", w7Fp)], [], [], [], []⟩

def w7Act : ActivityInput := ⟨"U003", 1/4, "email", false, false, "x"⟩

def w7Det : DetectorOutcome := ⟨true, 2/5, "y"⟩

def w7Score : ScoreData := ⟨15, "low"⟩

/-- C7 counterexample: a suppressed-window duplicate gets a `suppressed`
response whose `its_score` field is absent (`none`), contradicting the claim
that every response carries a numeric `its_score`. -/
theorem suppressed_response_has_no_its_score :
    (ingest_activity w7State w7Act (1/4) w7Det "fp7" w7Score).2 =
      .response "suppressed" true none none
        (some "Duplicate anomaly suppressed") := by
  rw [ingest_suppressed_path w7State w7Act (1/4) w7Det "fp7" w7Score w7User
    w7Fp 1 (by simp [w7State, w7User, w7Act, List.find?])
    (by exact lookup_key_head _ _ _) rfl (by norm_num)]

theorem ingest_its_score_by_status_witness :
    ("suppressed" = "alert_generated" →
      (none : Option ℚ) = some w7Score.its_score) ∧
    (("suppressed" = "suppressed" ∨ "suppressed" = "already_escalated") →
      (none : Option ℚ) = none) ∧
    "suppressed" ≠ "ok" :=
  ingest_its_score_by_status w7State w7Act (1/4) w7Det "fp7" w7Score
    "suppressed" true none none (some "Duplicate anomaly suppressed")
    (by rw [ingest_suppressed_path w7State w7Act (1/4) w7Det "fp7" w7Score
      w7User w7Fp 1 (by simp [w7State, w7User, w7Act, List.find?])
      (by exact lookup_key_head _ _ _) rfl (by norm_num)])

/-! ## C1: the non-anomalous (status=ok) path -/

def w1User : UserRec := ⟨"U001", 12, "low"⟩

def w1State : IngestState := ⟨[w1User], [], [], [], [], [], []⟩

def w1Act : ActivityInput := ⟨"U001", 3, "logon", false, false, "login"⟩

/-- C1 (code bug): for a known user whose activity the detector does NOT
flag, the handler neither updates the user's ITS nor returns `status=ok`:
the mis-indented function-level return at main.py line 1184 reads the
unbound local `threat_alert`, so the request ends in a 500 whose detail is
the `NameError` text, and the `status=ok` block (lines 1201-1218) is dead
code. -/
theorem non_anomalous_ingest_hits_name_error :
    (ingest_activity w1State w1Act 3 ⟨false, 0, ""⟩ "fpC" ⟨12, "low"⟩).2 =
      .httpError 500 "name threat_alert is not defined" ∧
    (ingest_activity w1State w1Act 3 ⟨false, 0, ""⟩ "fpC" ⟨12, "low"⟩).1.users =
      w1State.users := by
  rw [ingest_activity_fresh_fp w1State w1Act 3 ⟨false, 0, ""⟩ "fpC"
    ⟨12, "low"⟩ w1User (by simp [w1State, w1User, w1Act, List.find?]) rfl]
  rw [ingest_after_fingerprint_no_alert _ w1Act 3 ⟨false, 0, ""⟩ "fpC"
    ⟨12, "low"⟩ (by simp)]
  exact ⟨rfl, rfl⟩

/-! ## C2: error propagation of the ingest handler -/

def w2User : UserRec := ⟨"U004", 9, "low"⟩

def w2State : IngestState := ⟨[w2User], [], [], [], [], [], []⟩

def w2Act : ActivityInput := ⟨"U004", 5, "process", false, false, "proc"⟩

/-- C2 counterexample: on an internal failure (the `NameError` at the
function-level return) the 500 response's detail is the exception's message
— internal detail — and the posted activity, committed before the failure,
remains persisted; the claim's "rolls back ... not left persisted ...
without leaking internal detail" is false on this input. -/
theorem ingest_failure_leaks_detail_and_keeps_activity :
    (ingest_activity w2State w2Act 5 ⟨true, 1/5, "z"⟩ "fpD" ⟨9, "low"⟩).2 =
      .httpError 500 "name threat_alert is not defined" ∧
    (⟨"U004", 5, "process", false, false, "proc"⟩ : ActivityRec) ∈
      (ingest_activity w2State w2Act 5 ⟨true, 1/5, "z"⟩ "fpD"
        ⟨9, "low"⟩).1.activity_logs := by
  rw [ingest_activity_fresh_fp w2State w2Act 5 ⟨true, 1/5, "z"⟩ "fpD"
    ⟨9, "low"⟩ w2User (by simp [w2State, w2User, w2Act, List.find?]) rfl]
  rw [ingest_after_fingerprint_no_alert _ w2Act 5 ⟨true, 1/5, "z"⟩ "fpD"
    ⟨9, "low"⟩ (by norm_num)]
  exact ⟨rfl, by simp [w2State, w2Act]⟩

/-- C2 amended: for a known user the handler catches every internal failure
and answers it as HTTP 500 with the exception's message as detail (never an
uncaught exception), while the posted activity — committed before any
failure point — is persisted on every path, error paths included. -/
theorem ingest_error_policy_amended
    (st : IngestState) (a : ActivityInput) (now : ℚ) (det : DetectorOutcome)
    (fp : String) (score : ScoreData) (u₀ : UserRec)
    (hu : st.users.find? (fun u => u.user_id == a.user_id) = some u₀) :
    (ingest_activity st a now det fp score).1.activity_logs =
      st.activity_logs ++
        [⟨a.user_id, a.timestamp, a.activity_type, a.details_external,
          a.details_sensitive, a.details_blob⟩] ∧
    ∀ c d, (ingest_activity st a now det fp score).2 = .httpError c d →
      c = 500 ∧ d = "name threat_alert is not defined" := by
  refine ⟨ingest_logs_known_user st a now det fp score u₀ hu, ?_⟩
  intro c d hcd
  rcases ingest_shapes_known_user st a now det fp score u₀ hu with
    h | h | h | ⟨pl, h⟩ <;> rw [h] at hcd
  · injection hcd with h1 h2
    exact ⟨h1.symm, h2.symm⟩
  · cases hcd
  · cases hcd
  · cases hcd

theorem ingest_error_policy_amended_witness :
    (ingest_activity w2State w2Act 5 ⟨true, 1/5, "z"⟩ "fpD"
        ⟨9, "low"⟩).1.activity_logs =
      w2State.activity_logs ++
        [⟨w2Act.user_id, w2Act.timestamp, w2Act.activity_type,
          w2Act.details_external, w2Act.details_sensitive,
          w2Act.details_blob⟩] ∧
    ∀ c d, (ingest_activity w2State w2Act 5 ⟨true, 1/5, "z"⟩ "fpD"
        ⟨9, "low"⟩).2 = .httpError c d →
      c = 500 ∧ d = "name threat_alert is not defined" :=
  ingest_error_policy_amended w2State w2Act 5 ⟨true, 1/5, "z"⟩ "fpD"
    ⟨9, "low"⟩ w2User (by simp [w2State, w2User, w2Act, List.find?])

/-! ## C8: the agent offline queue (`agent/realtime_monitor.py`,
`_send_activities_batch`, lines 1389-1461) -/

section AgentQueue

variable {α : Type}

/-- Failure re-queue step of the RETRY phase (lines 1409-1417): append; if
the queue already holds 1,000 entries, `pop(0)` first (evict the oldest). -/
def requeueRetry (q : List α) (e : α) : List α :=
  if q.length < 1000 then q ++ [e] else q.drop 1 ++ [e]

/-- Failure queue step for a NEW event (lines 1444-1453): append only while
below the 1,000 bound; at the bound the new event is dropped (only a warning
is logged). -/
def queueNew (q : List α) (e : α) : List α :=
  if q.length < 1000 then q ++ [e] else q

/-- The retry loop over `retry_activities` (lines 1398-1418): the local
queue was copied and cleared, failures are rebuilt into it.  Returns the
successfully delivered events (in order) and the rebuilt queue. -/
def retryPhase (send : α → Bool) : List α → List α → List α × List α
  | [], q => ([], q)
  | e :: es, q =>
    if send e then
      let r := retryPhase send es q
      (e :: r.1, r.2)
    else retryPhase send es (requeueRetry q e)

/-- The send loop over `activities_to_send` (lines 1430-1454). -/
def sendPhase (send : α → Bool) : List α → List α → List α × List α
  | [], q => ([], q)
  | e :: es, q =>
    if send e then
      let r := sendPhase send es q
      (e :: r.1, r.2)
    else sendPhase send es (queueNew q e)

/-- `_send_activities_batch` (lines 1389-1461): locally queued events are
retried first, then the new events are sent; `send` models the per-event
transport outcome of `_send_activity`.  Returns (events delivered in order,
resulting local queue); the alert queue is always cleared by the caller's
copy-and-clear. -/
def send_activities_batch (send : α → Bool)
    (local_queue alert_queue : List α) : List α × List α :=
  let r1 :=
    if 0 < local_queue.length then retryPhase send local_queue []
    else ([], local_queue)
  if alert_queue.length = 0 then r1
  else
    let r2 := sendPhase send alert_queue r1.2
    (r1.1 ++ r2.1, r2.2)

/-- The overflow rule exactly as claim C8 words it: bounded at 1,000; when
full, the oldest queued event is evicted and the new event is kept. -/
def offline_enqueue_claimed (q : List α) (e : α) : List α :=
  if q.length < 1000 then q ++ [e] else q.drop 1 ++ [e]

lemma retryPhase_all_fail (send : α → Bool) (es : List α) (q : List α)
    (hf : ∀ e ∈ es, send e = false) (hlen : q.length + es.length ≤ 1000) :
    retryPhase send es q = ([], q ++ es) := by
  induction es generalizing q with
  | nil => simp [retryPhase]
  | cons e es ih =>
    rw [retryPhase, hf e (by simp)]
    rw [if_neg (by simp)]
    unfold requeueRetry
    rw [if_pos (by simp at hlen ⊢; omega)]
    rw [ih (q ++ [e]) (fun x hx => hf x (by simp [hx]))
      (by simp at hlen ⊢; omega)]
    simp

lemma retryPhase_all_success (send : α → Bool) (es : List α) (q : List α)
    (hs : ∀ e ∈ es, send e = true) :
    retryPhase send es q = (es, q) := by
  induction es with
  | nil => rfl
  | cons e es ih =>
    rw [retryPhase, hs e (by simp)]
    rw [if_pos rfl, ih (fun x hx => hs x (by simp [hx]))]

lemma sendPhase_all_success (send : α → Bool) (es : List α) (q : List α)
    (hs : ∀ e ∈ es, send e = true) :
    sendPhase send es q = (es, q) := by
  induction es with
  | nil => rfl
  | cons e es ih =>
    rw [sendPhase, hs e (by simp)]
    rw [if_pos rfl, ih (fun x hx => hs x (by simp [hx]))]

lemma queueNew_len_le (q : List α) (e : α) (h : q.length ≤ 1000) :
    (queueNew q e).length ≤ 1000 := by
  unfold queueNew
  split_ifs with h1
  · simp
    omega
  · simpa using h

lemma requeueRetry_len_le (q : List α) (e : α) (h : q.length ≤ 1000) :
    (requeueRetry q e).length ≤ 1000 := by
  unfold requeueRetry
  split_ifs with h1
  · simp
    omega
  · simp
    omega

lemma sendPhase_len_le (send : α → Bool) (es : List α) (q : List α)
    (h : q.length ≤ 1000) : (sendPhase send es q).2.length ≤ 1000 := by
  induction es generalizing q with
  | nil => simpa [sendPhase] using h
  | cons e es ih =>
    rw [sendPhase]
    by_cases hse : send e = true
    · rw [hse, if_pos rfl]
      exact ih q h
    · rw [Bool.not_eq_true] at hse
      rw [hse, if_neg (by simp)]
      exact ih _ (queueNew_len_le q e h)

lemma retryPhase_len_le (send : α → Bool) (es : List α) (q : List α)
    (h : q.length ≤ 1000) : (retryPhase send es q).2.length ≤ 1000 := by
  induction es generalizing q with
  | nil => simpa [retryPhase] using h
  | cons e es ih =>
    rw [retryPhase]
    by_cases hse : send e = true
    · rw [hse, if_pos rfl]
      exact ih q h
    · rw [Bool.not_eq_true] at hse
      rw [hse, if_neg (by simp)]
      exact ih _ (requeueRetry_len_le q e h)

/-- C8 amended: the offline queue is bounded at 1,000; on a fully successful
round the queued events are delivered before the new ones and the queue
empties; a failed NEW event is appended while the queue is below the bound,
and DROPPED when the queue is full (the oldest-eviction code exists only on
the retry path, where a full queue cannot arise). -/
theorem offline_queue_amended (send : α → Bool) (lq aq q : List α) (e : α)
    (hlq : lq.length ≤ 1000) :
    (send_activities_batch send lq aq).2.length ≤ 1000 ∧
    ((∀ x ∈ lq, send x = true) → (∀ x ∈ aq, send x = true) →
      send_activities_batch send lq aq = (lq ++ aq, [])) ∧
    (q.length < 1000 → queueNew q e = q ++ [e]) ∧
    (¬ q.length < 1000 → queueNew q e = q) := by
  refine ⟨?_, ?_, fun h => by rw [queueNew, if_pos h],
    fun h => by rw [queueNew, if_neg h]⟩
  · unfold send_activities_batch
    dsimp only
    by_cases h1 : 0 < lq.length
    · rw [if_pos h1]
      by_cases h2 : aq.length = 0
      · rw [if_pos h2]
        exact retryPhase_len_le send lq [] (by simp)
      · rw [if_neg h2]
        exact sendPhase_len_le send aq _
          (retryPhase_len_le send lq [] (by simp))
    · rw [if_neg h1]
      by_cases h2 : aq.length = 0
      · rw [if_pos h2]
        exact hlq
      · rw [if_neg h2]
        exact sendPhase_len_le send aq _ hlq
  · intro hlqs haqs
    unfold send_activities_batch
    dsimp only
    by_cases h1 : 0 < lq.length
    · rw [if_pos h1, retryPhase_all_success send lq [] hlqs]
      by_cases h2 : aq.length = 0
      · rw [if_pos h2]
        have haq : aq = [] := List.length_eq_zero.mp h2
        simp [haq]
      · rw [if_neg h2, sendPhase_all_success send aq _ haqs]
    · have hlq0 : lq = [] := by
        cases lq with
        | nil => rfl
        | cons x xs => simp at h1
      rw [if_neg h1]
      by_cases h2 : aq.length = 0
      · rw [if_pos h2]
        have haq : aq = [] := List.length_eq_zero.mp h2
        simp [hlq0, haq]
      · rw [if_neg h2, sendPhase_all_success send aq _ haqs]
        simp [hlq0]

theorem offline_queue_amended_witness :
    (send_activities_batch (fun _ => true) [(5 : ℕ)] [6]).2.length ≤ 1000 ∧
    ((∀ x ∈ [(5 : ℕ)], (fun _ => true) x = true) →
      (∀ x ∈ [(6 : ℕ)], (fun _ => true) x = true) →
      send_activities_batch (fun _ => true) [(5 : ℕ)] [6] =
        ([5] ++ [6], [])) ∧
    (([] : List ℕ).length < 1000 → queueNew [] (7 : ℕ) = [] ++ [7]) ∧
    (¬ ([] : List ℕ).length < 1000 → queueNew [] (7 : ℕ) = []) :=
  offline_queue_amended (fun _ => true) [5] [6] [] 7 (by simp)

/-- C8 counterexample: with a full queue of 1,000 entries and a failing
transport, a new event `1` is DROPPED (`queueNew` keeps the queue as is),
while the claim's overflow rule would evict the oldest entry and keep `1`. -/
theorem offline_queue_overflow_counterexample :
    (send_activities_batch (fun _ => false) (List.replicate 1000 (0 : ℕ))
      [1]).2 = List.replicate 1000 0 ∧
    (1 : ℕ) ∉ List.replicate 1000 (0 : ℕ) ∧
    offline_enqueue_claimed (List.replicate 1000 (0 : ℕ)) 1 =
      List.replicate 999 0 ++ [1] ∧
    (1 : ℕ) ∈ List.replicate 999 0 ++ [1] := by
  have h1 : retryPhase (fun _ => false) (List.replicate 1000 (0 : ℕ)) [] =
      ([], [] ++ List.replicate 1000 0) :=
    retryPhase_all_fail _ _ _ (fun e _ => rfl)
      (by rw [List.length_nil, List.length_replicate])
  have hrep : List.replicate 1000 (0 : ℕ) = 0 :: List.replicate 999 0 := by
    rw [show (1000 : ℕ) = 999 + 1 from rfl, List.replicate_succ]
  have hfull : ¬ ([] ++ List.replicate 1000 (0 : ℕ)).length < 1000 := by
    rw [List.nil_append, List.length_replicate]
    omega
  refine ⟨?_, ?_, ?_, List.mem_append_right _ (List.mem_singleton_self 1)⟩
  · unfold send_activities_batch
    dsimp only
    rw [if_neg (show ¬ ([(1 : ℕ)].length = 0) by simp)]
    rw [if_pos (show 0 < (List.replicate 1000 (0 : ℕ)).length from by
      rw [List.length_replicate]; norm_num)]
    rw [h1]
    rw [show sendPhase (fun _ => false) [1]
        (([], [] ++ List.replicate 1000 (0 : ℕ)).2) =
      ([], queueNew ([] ++ List.replicate 1000 (0 : ℕ)) 1) from rfl]
    rw [show queueNew ([] ++ List.replicate 1000 (0 : ℕ)) 1 =
      [] ++ List.replicate 1000 (0 : ℕ) from by rw [queueNew, if_neg hfull]]
    rfl
  · intro hmem
    rw [List.mem_replicate] at hmem
    exact one_ne_zero hmem.2
  · unfold offline_enqueue_claimed
    rw [if_neg (by rw [List.length_replicate]; omega)]
    rw [hrep]
    rfl

end AgentQueue
